import Mathlib

/-!
# GlueUI: a shallow embedding of `src/GlueUi.py` and proofs about it

GlueUI is a small immediate-mode UI library.  Each widget call consults and
mutates per-label persistent state (`Buttons`, `CheckboxStates`), resolves
colors from an indexed palette (reversed when dark mode is off), and issues
draw calls to an SDL backend.

The embedding below translates the relevant classes and methods:

* `Nat2` (integer 2-vector with `Nat2 + Nat2` and `Nat2 + int` addition),
  `Rect`, `Vec4` (RGBA color with rational components standing for the
  Python floats),
* the `UiManager` state (fonts registry, per-label button and checkbox
  records, color palette, dark-mode flag), with Python `dict`s modelled as
  insertion-ordered association lists,
* Python list indexing (`l[i]`, including negative-index wraparound and
  `IndexError`),
* the methods `ColorPaletteMode`, `PointInsideRect`, `RectIsHover`,
  `IsClick`, `Rect` (filled-rectangle draw), `RectBorder`, `Text`,
  `TextWrapped`, `Checkbox` and `Button`.

Backend interaction is made explicit: per-frame inputs (cursor position,
mouse-button state, text measurement) are a `FrameInput` parameter, draw
calls are collected in a `List DrawCall`, and Python exceptions become
`Except UiError`.  The `OnClick` callback of `Button` is modelled as a state
transformer `UiManager → UiManager`.
-/

set_option autoImplicit false

/-- The integer 2-vector class `Nat2` (fields are Python `int`s). -/
structure Nat2 where
  X : Int
  Y : Int
deriving DecidableEq, Repr

/-- `Nat2.__add__` with another `Nat2`: component-wise sum. -/
instance : HAdd Nat2 Nat2 Nat2 :=
  ⟨fun a b => ⟨a.X + b.X, a.Y + b.Y⟩⟩

/-- `Nat2.__add__` with an `int`: adds the scalar to both components. -/
instance : HAdd Nat2 Int Nat2 :=
  ⟨fun a k => ⟨a.X + k, a.Y + k⟩⟩

/-- The axis-aligned rectangle class `Rect`: top-left corner and size. -/
structure Rect where
  XY : Nat2
  WH : Nat2
deriving DecidableEq, Repr

/-- Alias for the geometric `Rect`, usable where the method name
`UiManager.Rect` shadows the structure name. -/
abbrev GeomRect := Rect

/-- Build a geometric rectangle. -/
def mkRect (xy wh : Nat2) : GeomRect := ⟨xy, wh⟩

/-- The RGBA color class `Vec4`.  Components are rationals standing for the
Python floats (every palette literal in the source is exactly
representable). -/
structure Vec4 where
  X : ℚ
  Y : ℚ
  Z : ℚ
  W : ℚ := 1
deriving DecidableEq, Repr

/-- Python list indexing `l[i]`: a non-negative index must be `< len l`, a
negative index `i` with `-len l ≤ i` wraps to `len l + i`, anything else
raises `IndexError` (modelled as `none`). -/
def pyIndex {α : Type} (l : List α) (i : Int) : Option α :=
  if 0 ≤ i then l.get? i.toNat
  else if i < -(l.length : Int) then none
  else l.get? ((l.length : Int) + i).toNat

/-- Ordered-dictionary lookup on an association list (Python `dict` access
`d[k]` / `k in d`). -/
def dictLookup {α : Type} (d : List (String × α)) (k : String) : Option α :=
  match d with
  | [] => none
  | (k2, v) :: rest => if k2 = k then some v else dictLookup rest k

/-- Ordered-dictionary update `d[k] = v`: replaces in place when the key is
present, appends otherwise (Python `dict` insertion order). -/
def dictInsert {α : Type} (d : List (String × α)) (k : String) (v : α) :
    List (String × α) :=
  match d with
  | [] => [(k, v)]
  | (k2, v2) :: rest =>
      if k2 = k then (k, v) :: rest else (k2, v2) :: dictInsert rest k v

/-- Per-label button state: the dict
`{"active": ..., "mouse_down": ..., "prev_mouse_down": ...}`. -/
structure ButtonRecord where
  active : Bool
  mouse_down : Bool
  prev_mouse_down : Bool
deriving DecidableEq, Repr

/-- Per-label checkbox state: the dict `{"checked": ..., "mouse_down": ...}`. -/
structure CheckboxRecord where
  checked : Bool
  mouse_down : Bool
deriving DecidableEq, Repr

/-- Python exceptions the embedded methods can raise. -/
inductive UiError where
  /-- `IndexError`: list index out of range (palette lookup). -/
  | indexError
  /-- `RuntimeError("No font loaded. ...")` from `Text`. -/
  | noFontLoaded
  /-- `KeyError`: dictionary key missing (e.g. unknown font name). -/
  | keyError
deriving DecidableEq, Repr

/-- One draw call issued to the SDL backend. -/
inductive DrawCall where
  /-- `SDL_FillRect` of an opaque rectangle (from `UiManager.Rect`). -/
  | fillRect (pos size : Nat2) (color : Vec4)
  /-- `SDL_BlitSurface` of a rendered text surface (from `UiManager.Text`):
  the string, its top-left position, its measured size and its color. -/
  | blit (str : String) (pos size : Nat2) (color : Vec4)
deriving DecidableEq, Repr

/-- The mouse buttons accepted by `IsClick` (the
`Literal["Left", "Right", "Middle"]` type hint). -/
inductive MouseButton where
  | Left
  | Right
  | Middle
deriving DecidableEq, Repr

/-- Backend samples consumed during one widget call: the cursor position
(`SDL_GetMouseState`), the physical mouse-button states, and text
measurement (`TTF_RenderUTF8_Blended` surface size, as a function of the
font name and the string). -/
structure FrameInput where
  cursor : Nat2
  leftDown : Bool
  rightDown : Bool
  middleDown : Bool
  measure : String → String → Nat2

/-- The persistent state of a `UiManager` instance: the fields of
`UiManager.__init__` that the embedded methods read or write.  Fonts are
identified by their registry names. -/
structure UiManager where
  Running : Bool
  Fonts : List String
  ActiveMenu : String
  CheckboxStates : List (String × CheckboxRecord)
  Buttons : List (String × ButtonRecord)
  ColorPalette : List Vec4
  IsDarkMode : Bool
deriving DecidableEq, Repr

/-- The initial state built by `UiManager.__init__`: no fonts, no widget
records, the five-color green palette, dark mode on. -/
def UiManager.init : UiManager where
  Running := true
  Fonts := []
  ActiveMenu := "Main"
  CheckboxStates := []
  Buttons := []
  ColorPalette :=
    [⟨0, 0.922, 0.451, 1⟩, ⟨0, 0.78, 0.376, 1⟩, ⟨0, 0.62, 0.298, 1⟩,
     ⟨0, 0.459, 0.224, 1⟩, ⟨0, 0.302, 0.149, 1⟩]
  IsDarkMode := true

/-- `UiManager.SwitchMode`: flips the dark-mode flag. -/
def UiManager.SwitchMode (self : UiManager) : UiManager :=
  { self with IsDarkMode := !self.IsDarkMode }

/-- `UiManager.ColorPaletteMode`: the palette in declared order in dark
mode, reversed (`self.ColorPalette[::-1]`) otherwise. -/
def UiManager.ColorPaletteMode (self : UiManager) : List Vec4 :=
  if !self.IsDarkMode then self.ColorPalette.reverse else self.ColorPalette

/-- The expression `self.ColorPaletteMode()[ColorIdx]` shared by `Rect` and
`Text`: resolves a palette index in the current mode, raising `IndexError`
exactly when Python indexing does. -/
def UiManager.resolveColor (self : UiManager) (ColorIdx : Int) :
    Except UiError Vec4 :=
  match pyIndex self.ColorPaletteMode ColorIdx with
  | some c => .ok c
  | none => .error .indexError

/-- `UiManager.IsClick`: current state of the given physical mouse button. -/
def UiManager.IsClick (inp : FrameInput) (Button : MouseButton) : Bool :=
  match Button with
  | .Left => inp.leftDown
  | .Right => inp.rightDown
  | .Middle => inp.middleDown

/-- `UiManager.PointInsideRect`: inclusive bounds on all four edges. -/
def UiManager.PointInsideRect (Point RectPos RectSize : Nat2) : Bool :=
  (decide (RectPos.X ≤ Point.X) && decide (Point.X ≤ RectPos.X + RectSize.X)) &&
  (decide (RectPos.Y ≤ Point.Y) && decide (Point.Y ≤ RectPos.Y + RectSize.Y))

/-- `UiManager.RectIsHover`: the cursor sample lies inside the rectangle. -/
def UiManager.RectIsHover (inp : FrameInput) (TRect : GeomRect) : Bool :=
  UiManager.PointInsideRect inp.cursor TRect.XY TRect.WH

/-- `UiManager.Rect`: resolves the palette color for the current mode and
issues one `SDL_FillRect` draw call.  Raises `IndexError` (with no draw
issued) when the index is out of range. -/
def UiManager.Rect (self : UiManager) (Pos Size : Nat2) (ColorIdx : Int) :
    Except UiError DrawCall :=
  match self.resolveColor ColorIdx with
  | .error e => .error e
  | .ok Color => .ok (.fillRect Pos Size Color)

/-- `UiManager.Text`: resolves the color, checks that at least one font is
loaded, looks the font up by name, measures the string, and returns the
bounding rectangle `Rect(Pos, measuredSize)`.  The blit draw call is issued
only when `NoDraw` is false. -/
def UiManager.Text (measure : String → String → Nat2) (self : UiManager)
    (Str : String) (Pos : Nat2) (FontName : String) (ColorIdx : Int)
    (NoDraw : Bool) : Except UiError (GeomRect × List DrawCall) :=
  match self.resolveColor ColorIdx with
  | .error e => .error e
  | .ok Color =>
    if self.Fonts.length = 0 then .error .noFontLoaded
    else if !(self.Fonts.contains FontName) then .error .keyError
    else
      let size := measure FontName Str
      let RRect := mkRect Pos size
      .ok (RRect, if NoDraw then [] else [.blit Str Pos size Color])

/-- `UiManager.RectBorder`: four filled strips (top, left, bottom, right)
forming a hollow frame of the given thickness. -/
def UiManager.RectBorder (self : UiManager) (Pos Size : Nat2)
    (ColorIdx : Int) (Thickness : Int) : Except UiError (List DrawCall) :=
  match self.Rect Pos ⟨Size.X, Thickness⟩ ColorIdx with
  | .error e => .error e
  | .ok top =>
    match self.Rect Pos ⟨Thickness, Size.Y⟩ ColorIdx with
    | .error e => .error e
    | .ok left =>
      match self.Rect ⟨Pos.X, Pos.Y + Size.Y - Thickness⟩ ⟨Size.X, Thickness⟩
          ColorIdx with
      | .error e => .error e
      | .ok bottom =>
        match self.Rect ⟨Pos.X + Size.X - Thickness, Pos.Y⟩
            ⟨Thickness, Size.Y⟩ ColorIdx with
        | .error e => .error e
        | .ok right => .ok [top, left, bottom, right]

/-- Splitting a character list at every newline, keeping empty pieces
(the recursion behind Python's `str.split("\n")`). -/
def splitNl : List Char → List (List Char)
  | [] => [[]]
  | c :: rest =>
    match splitNl rest with
    | [] => [[]]
    | l :: ls => if c = '\n' then [] :: l :: ls else (c :: l) :: ls

/-- Python's `Str.split("\n")`: the list of maximal newline-free pieces of
the string, empty pieces included (`"a\n\nb"` gives `["a", "", "b"]`,
`""` gives `[""]`). -/
def pySplitNl (s : String) : List String := (splitNl s.data).map String.mk

/-- The loop body of `UiManager.TextWrapped` over the enumerated lines of
the split string: empty lines are skipped, every other line is drawn at
`Pos + Nat2(0, Idx * 16)`. -/
def UiManager.TextWrappedAux (measure : String → String → Nat2)
    (self : UiManager) (Pos : Nat2) (FontName : String) (ColorIdx : Int) :
    List (Nat × String) → Except UiError (List DrawCall)
  | [] => .ok []
  | (Idx, String) :: rest =>
    if String = "" then UiManager.TextWrappedAux measure self Pos FontName ColorIdx rest
    else
      match UiManager.Text measure self String (Pos + Nat2.mk 0 ((Idx : Int) * 16))
          FontName ColorIdx false with
      | .error e => .error e
      | .ok (_, ds) =>
        match UiManager.TextWrappedAux measure self Pos FontName ColorIdx rest with
        | .error e => .error e
        | .ok rest2 => .ok (ds ++ rest2)

/-- `UiManager.TextWrapped`: splits the string on newline
(`Str.split("\n")`) and draws each non-empty line at
`Pos + Nat2(0, Idx * 16)`, `Idx` being the line's index in the split. -/
def UiManager.TextWrapped (measure : String → String → Nat2)
    (self : UiManager) (Str : String) (Pos : Nat2) (FontName : String)
    (ColorIdx : Int) : Except UiError (List DrawCall) :=
  UiManager.TextWrappedAux measure self Pos FontName ColorIdx
    ((pySplitNl Str).enum)


/-! ### Checkbox (`UiManager.Checkbox`, decomposed into its stages) -/

/-- Checkbox lazy record initialization (`if Label not in
self.CheckboxStates: ... {"checked": False, "mouse_down": False}`). -/
def checkboxInitState (self : UiManager) (Label : String) : UiManager :=
  if (dictLookup self.CheckboxStates Label).isSome then self
  else { self with
         CheckboxStates := dictInsert self.CheckboxStates Label ⟨false, false⟩ }

/-- The record `Checkbox` works on after lazy initialization. -/
def checkboxRec0 (self : UiManager) (Label : String) : CheckboxRecord :=
  (dictLookup (checkboxInitState self Label).CheckboxStates Label).getD
    ⟨false, false⟩

/-- The checkbox hover test: cursor inside the fixed 20×20 box at `Pos`. -/
def checkboxHovered (inp : FrameInput) (Pos : Nat2) : Bool :=
  UiManager.RectIsHover inp (mkRect Pos ⟨20, 20⟩)

/-- The record after `Checkbox`'s hover/click handling: while hovered with
the left button down, a record whose own `mouse_down` is still false flips
`checked` and latches `mouse_down`; while hovered with the button up, or
not hovered at all, `mouse_down` resets to false. -/
def checkboxStep (inp : FrameInput) (self : UiManager) (Label : String)
    (Pos : Nat2) : CheckboxRecord :=
  let rec0 := checkboxRec0 self Label
  if checkboxHovered inp Pos then
    if UiManager.IsClick inp .Left then
      if !rec0.mouse_down then ⟨!rec0.checked, true⟩ else rec0
    else { rec0 with mouse_down := false }
  else { rec0 with mouse_down := false }

/-- The state after `Checkbox`'s record update. -/
def checkboxSt1 (inp : FrameInput) (self : UiManager) (Label : String)
    (Pos : Nat2) : UiManager :=
  { checkboxInitState self Label with
    CheckboxStates := dictInsert (checkboxInitState self Label).CheckboxStates
      Label (checkboxStep inp self Label Pos) }

/-- `UiManager.Checkbox`: lazily creates the per-label record; while
hovered and unchecked draws the inner hover tint (before the click
handling, so a bad hover-color index aborts before any toggle); toggles per
`checkboxStep`; then draws the checked fill, the thickness-2 border and the
label, and returns `(checked, hovered)`. -/
def UiManager.Checkbox (inp : FrameInput) (self : UiManager) (Label : String)
    (Pos : Nat2) (FontName : String) (ColorBorderIdx ColorInnerIdx
    ColorInnerHoverIdx ColorTextIdx : Int) :
    Except UiError (UiManager × List DrawCall × Bool × Bool) :=
  match (if checkboxHovered inp Pos && !(checkboxRec0 self Label).checked then
          ((checkboxInitState self Label).Rect (Pos + Nat2.mk 4 4)
            ⟨20 - 8, 20 - 8⟩ ColorInnerHoverIdx).map (fun d => [d])
         else .ok []) with
  | .error e => .error e
  | .ok hoverDraws =>
    match (if (checkboxStep inp self Label Pos).checked then
            ((checkboxSt1 inp self Label Pos).Rect (Pos + Nat2.mk 4 4)
              ⟨20 - 8, 20 - 8⟩ ColorInnerIdx).map (fun d => [d])
           else .ok []) with
    | .error e => .error e
    | .ok checkedDraws =>
      match (checkboxSt1 inp self Label Pos).RectBorder Pos ⟨20, 20⟩
          ColorBorderIdx 2 with
      | .error e => .error e
      | .ok borderDraws =>
        match UiManager.Text inp.measure (checkboxSt1 inp self Label Pos)
            Label (Pos + Nat2.mk (20 + 10) 0) FontName ColorTextIdx false with
        | .error e => .error e
        | .ok (_, textDraws) =>
          .ok (checkboxSt1 inp self Label Pos,
               hoverDraws ++ checkedDraws ++ borderDraws ++ textDraws,
               (checkboxStep inp self Label Pos).checked,
               checkboxHovered inp Pos)

/-! ### Button (`UiManager.Button`, decomposed into its stages) -/

/-- Button lazy record initialization (`if Label not in self.Buttons: ...
{"active": True, "mouse_down": True, "prev_mouse_down": True}`). -/
def buttonInitState (self : UiManager) (Label : String) : UiManager :=
  if (dictLookup self.Buttons Label).isSome then self
  else { self with
         Buttons := dictInsert self.Buttons Label ⟨true, true, true⟩ }

/-- The `prev_mouse_down` value `Button` reads for a label (after lazy
initialization, hence `true` for an unseen label). -/
def buttonPrev (self : UiManager) (Label : String) : Bool :=
  ((dictLookup (buttonInitState self Label).Buttons Label).getD
    ⟨true, true, true⟩).prev_mouse_down

/-- The padded button rectangle: the measured text rectangle with its
top-left shifted by `-10` and its size grown by `+20`
(`Rect(TextRect.XY + -10, TextRect.WH + 20)`). -/
def buttonRectFrom (TextRect : GeomRect) : GeomRect :=
  mkRect (TextRect.XY + (-10 : Int)) (TextRect.WH + (20 : Int))

/-- The button hover test on the padded rectangle. -/
def buttonHoverFrom (inp : FrameInput) (TextRect : GeomRect) : Bool :=
  UiManager.RectIsHover inp (buttonRectFrom TextRect)

/-- The click-edge condition: hovered, left button down, and the stored
`prev_mouse_down` false. -/
def buttonClickFires (inp : FrameInput) (self : UiManager) (Label : String)
    (TextRect : GeomRect) : Bool :=
  buttonHoverFrom inp TextRect && UiManager.IsClick inp .Left &&
    !(buttonPrev self Label)

/-- The state after the (at most one) `OnClick` invocation: the callback
runs on the post-initialization state exactly when the click fires. -/
def buttonPostCb (inp : FrameInput) (self : UiManager) (Label : String)
    (OnClick : UiManager → UiManager) (TextRect : GeomRect) : UiManager :=
  if buttonClickFires inp self Label TextRect
  then OnClick (buttonInitState self Label) else buttonInitState self Label

/-- The tail of `Button` after the text measurement: fires the callback,
draws the background rectangle (hover color when hovered, normal color
otherwise) and the label against the post-callback state, then stores the
sampled mouse-down state in the record's `prev_mouse_down`. -/
def buttonFinish (inp : FrameInput) (self : UiManager) (Label : String)
    (Pos : Nat2) (FontName : String) (OnClick : UiManager → UiManager)
    (ColorTextIdx ColorHoverIdx ColorNormalIdx : Int) (TextRect : GeomRect) :
    Except UiError (UiManager × List DrawCall × GeomRect × Bool × Bool) :=
  match (buttonPostCb inp self Label OnClick TextRect).Rect
      (buttonRectFrom TextRect).XY (buttonRectFrom TextRect).WH
      (if buttonHoverFrom inp TextRect then ColorHoverIdx else ColorNormalIdx) with
  | .error e => .error e
  | .ok bg =>
    match UiManager.Text inp.measure (buttonPostCb inp self Label OnClick TextRect)
        Label Pos FontName ColorTextIdx false with
    | .error e => .error e
    | .ok (_, textDraws) =>
      match dictLookup (buttonPostCb inp self Label OnClick TextRect).Buttons Label with
      | none => .error .keyError
      | some r =>
        .ok ({ buttonPostCb inp self Label OnClick TextRect with
               Buttons := dictInsert
                 (buttonPostCb inp self Label OnClick TextRect).Buttons Label
                 { r with prev_mouse_down := UiManager.IsClick inp .Left } },
             bg :: textDraws, buttonRectFrom TextRect,
             buttonClickFires inp self Label TextRect,
             buttonHoverFrom inp TextRect)

/-- `UiManager.Button`: lazily creates the per-label record
(pre-pressed: `prev_mouse_down=True`), measures the label without drawing,
and hands the measured rectangle to `buttonFinish`. -/
def UiManager.Button (inp : FrameInput) (self : UiManager) (Label : String)
    (Pos : Nat2) (FontName : String) (OnClick : UiManager → UiManager)
    (ColorTextIdx ColorHoverIdx ColorNormalIdx : Int) :
    Except UiError (UiManager × List DrawCall × GeomRect × Bool × Bool) :=
  match UiManager.Text inp.measure (buttonInitState self Label) Label Pos
      FontName ColorTextIdx true with
  | .error e => .error e
  | .ok (TextRect, _) =>
    buttonFinish inp self Label Pos FontName OnClick ColorTextIdx
      ColorHoverIdx ColorNormalIdx TextRect

/-! ### Concrete fixture used by the closed-instance theorems -/

/-- A constant text-measurement backend: every string measures 40×16. -/
def testMeasure : String → String → Nat2 := fun _ _ => ⟨40, 16⟩

/-- Frame input: cursor at (100, 100), left button down. -/
def inpDown : FrameInput := ⟨⟨100, 100⟩, true, false, false, testMeasure⟩

/-- Frame input: cursor at (100, 100), left button up. -/
def inpUp : FrameInput := ⟨⟨100, 100⟩, false, false, false, testMeasure⟩

/-- A manager with one font loaded and a button record whose
`prev_mouse_down` is false (as after a frame with the mouse up). -/
def stReady : UiManager :=
  { UiManager.init with Fonts := ["font"], Buttons := [("btn", ⟨true, true, false⟩)] }

/-- Result state of a `Button` call (initial state on error). -/
def btnState (r : Except UiError (UiManager × List DrawCall × GeomRect × Bool × Bool)) :
    UiManager :=
  match r with | .ok t => t.1 | .error _ => UiManager.init

/-- Draw calls of a `Button` call. -/
def btnDraws (r : Except UiError (UiManager × List DrawCall × GeomRect × Bool × Bool)) :
    List DrawCall :=
  match r with | .ok t => t.2.1 | .error _ => []

/-- Rectangle of a `Button` call. -/
def btnRect (r : Except UiError (UiManager × List DrawCall × GeomRect × Bool × Bool)) :
    GeomRect :=
  match r with | .ok t => t.2.2.1 | .error _ => mkRect ⟨0, 0⟩ ⟨0, 0⟩

/-- Clicked flag of a `Button` call. -/
def btnClicked (r : Except UiError (UiManager × List DrawCall × GeomRect × Bool × Bool)) :
    Bool :=
  match r with | .ok t => t.2.2.2.1 | .error _ => false

/-- Hovered flag of a `Button` call. -/
def btnHovered (r : Except UiError (UiManager × List DrawCall × GeomRect × Bool × Bool)) :
    Bool :=
  match r with | .ok t => t.2.2.2.2 | .error _ => false

/-- Four `Button` frames on the same hovered label with left-button samples
`[down, down, up, down]`: frame 1. -/
def btnRun1 : Except UiError (UiManager × List DrawCall × GeomRect × Bool × Bool) :=
  UiManager.Button inpDown stReady "btn" ⟨100, 100⟩ "font" (fun s => s) 2 1 3

/-- Frame 2 (still down). -/
def btnRun2 : Except UiError (UiManager × List DrawCall × GeomRect × Bool × Bool) :=
  UiManager.Button inpDown (btnState btnRun1) "btn" ⟨100, 100⟩ "font" (fun s => s) 2 1 3

/-- Frame 3 (released). -/
def btnRun3 : Except UiError (UiManager × List DrawCall × GeomRect × Bool × Bool) :=
  UiManager.Button inpUp (btnState btnRun2) "btn" ⟨100, 100⟩ "font" (fun s => s) 2 1 3

/-- Frame 4 (down again). -/
def btnRun4 : Except UiError (UiManager × List DrawCall × GeomRect × Bool × Bool) :=
  UiManager.Button inpDown (btnState btnRun3) "btn" ⟨100, 100⟩ "font" (fun s => s) 2 1 3

/-- Result state of a `Checkbox` call (initial state on error). -/
def cbState (r : Except UiError (UiManager × List DrawCall × Bool × Bool)) :
    UiManager :=
  match r with | .ok t => t.1 | .error _ => UiManager.init

/-- Checked flag of a `Checkbox` call. -/
def cbChecked (r : Except UiError (UiManager × List DrawCall × Bool × Bool)) :
    Bool :=
  match r with | .ok t => t.2.2.1 | .error _ => false

/-- Hovered flag of a `Checkbox` call. -/
def cbHovered (r : Except UiError (UiManager × List DrawCall × Bool × Bool)) :
    Bool :=
  match r with | .ok t => t.2.2.2 | .error _ => false

/-- Draw calls of a `Checkbox` call. -/
def cbDraws (r : Except UiError (UiManager × List DrawCall × Bool × Bool)) :
    List DrawCall :=
  match r with | .ok t => t.2.1 | .error _ => []

/-- A `Button` call on a label never seen before, with the pointer already
held down and hovering. -/
def btnFresh : Except UiError (UiManager × List DrawCall × GeomRect × Bool × Bool) :=
  UiManager.Button inpDown { UiManager.init with Fonts := ["font"] } "new"
    ⟨100, 100⟩ "font" (fun s => s) 2 1 3

/-- A clicked `Button` call whose callback flips dark mode. -/
def btnCb : Except UiError (UiManager × List DrawCall × GeomRect × Bool × Bool) :=
  UiManager.Button inpDown stReady "btn" ⟨100, 100⟩ "font" UiManager.SwitchMode 2 1 3

/-- A manager with one font loaded and no widget records. -/
def stCb : UiManager := { UiManager.init with Fonts := ["font"] }

/-- A `Checkbox` call on a fresh label, hovered with the left button
down. -/
def cbRun1 : Except UiError (UiManager × List DrawCall × Bool × Bool) :=
  UiManager.Checkbox inpDown stCb "cb" ⟨95, 95⟩ "font" 0 1 2 0

/-- The checkbox toggle rule as the specification words it (spec-side
restatement, to be compared with the source-derived `checkboxStep`): while
hovered and down with the record's `MouseDownPrev` false, flip `checked`
and latch; while hovered and down otherwise, leave the record; while
hovered-and-up or not hovered, reset `MouseDownPrev`. -/
def checkboxSpecStep (hovered down : Bool) (r0 : CheckboxRecord) :
    CheckboxRecord :=
  if hovered && down && !r0.mouse_down then ⟨!r0.checked, true⟩
  else if hovered && down then r0
  else { r0 with mouse_down := false }

/-! ## Helper lemmas -/

theorem dictLookup_dictInsert_self {α : Type} (d : List (String × α))
    (k : String) (v : α) : dictLookup (dictInsert d k v) k = some v := by
  induction d with
  | nil => simp [dictInsert, dictLookup]
  | cons p rest ih =>
    obtain ⟨k2, v2⟩ := p
    by_cases hk : k2 = k <;> simp [dictInsert, dictLookup, hk, ih]

theorem dictLookup_dictInsert_ne {α : Type} (d : List (String × α))
    (k k2 : String) (v : α) (h : k2 ≠ k) :
    dictLookup (dictInsert d k v) k2 = dictLookup d k2 := by
  induction d with
  | nil =>
    show (if k = k2 then some v else dictLookup [] k2) = none
    rw [if_neg (Ne.symm h)]
    rfl
  | cons p rest ih =>
    obtain ⟨k3, v3⟩ := p
    show dictLookup (if k3 = k then (k, v) :: rest
          else (k3, v3) :: dictInsert rest k v) k2 =
        dictLookup ((k3, v3) :: rest) k2
    by_cases hk : k3 = k
    · rw [if_pos hk]
      subst hk
      show (if k3 = k2 then some v else dictLookup rest k2) =
          if k3 = k2 then some v3 else dictLookup rest k2
      rw [if_neg (Ne.symm h), if_neg (Ne.symm h)]
    · rw [if_neg hk]
      show (if k3 = k2 then some v3 else dictLookup (dictInsert rest k v) k2) =
          if k3 = k2 then some v3 else dictLookup rest k2
      by_cases hk2 : k3 = k2
      · rw [if_pos hk2, if_pos hk2]
      · rw [if_neg hk2, if_neg hk2]
        exact ih

/-- Inversion of a successful `Text` call: the returned rectangle is the
requested position with the measured size, and the draw list is empty for
`NoDraw` and a single blit otherwise. -/
theorem Text_ok_inv (m : String → String → Nat2) (st : UiManager)
    (Str : String) (Pos : Nat2) (F : String) (cIdx : Int) (nd : Bool)
    (r : GeomRect) (ds : List DrawCall)
    (h : UiManager.Text m st Str Pos F cIdx nd = .ok (r, ds)) :
    r = mkRect Pos (m F Str) ∧
    ∃ col : Vec4, st.resolveColor cIdx = .ok col ∧
      ds = (if nd then [] else [.blit Str Pos (m F Str) col]) := by
  unfold UiManager.Text at h
  rcases hc : st.resolveColor cIdx with e | col <;> rw [hc] at h
  · exact Except.noConfusion h
  · have h' : (if st.Fonts.length = 0 then
          (Except.error UiError.noFontLoaded :
            Except UiError (GeomRect × List DrawCall))
        else if (!st.Fonts.contains F) = true then .error .keyError
        else .ok (mkRect Pos (m F Str),
          if nd then [] else [.blit Str Pos (m F Str) col])) = .ok (r, ds) := h
    by_cases h1 : st.Fonts.length = 0
    · rw [if_pos h1] at h'
      exact Except.noConfusion h'
    · rw [if_neg h1] at h'
      by_cases h2 : (!st.Fonts.contains F) = true
      · rw [if_pos h2] at h'
        exact Except.noConfusion h'
      · rw [if_neg h2] at h'
        obtain ⟨h3, h4⟩ := Prod.mk.inj (Except.ok.inj h')
        exact ⟨h3.symm, col, rfl, h4.symm⟩

/-- Forward evaluation of `Text` when the color resolves and the font
registry is in order. -/
theorem Text_eq_ok (m : String → String → Nat2) (st : UiManager)
    (Str : String) (Pos : Nat2) (F : String) (cIdx : Int) (nd : Bool)
    (col : Vec4) (hc : st.resolveColor cIdx = .ok col)
    (h1 : st.Fonts.length ≠ 0) (h2 : st.Fonts.contains F = true) :
    UiManager.Text m st Str Pos F cIdx nd =
      .ok (mkRect Pos (m F Str),
           if nd then [] else [.blit Str Pos (m F Str) col]) := by
  unfold UiManager.Text
  rw [hc]
  show (if st.Fonts.length = 0 then
      (Except.error UiError.noFontLoaded : Except UiError (GeomRect × List DrawCall))
    else if (!st.Fonts.contains F) = true then .error .keyError
    else .ok (mkRect Pos (m F Str),
      if nd then [] else [.blit Str Pos (m F Str) col])) = _
  rw [if_neg h1, if_neg (by rw [h2]; simp)]

/-- `Rect` is color resolution followed by a single fill draw. -/
theorem Rect_eq (st : UiManager) (Pos Size : Nat2) (cIdx : Int) :
    st.Rect Pos Size cIdx =
      (st.resolveColor cIdx).map (fun col => .fillRect Pos Size col) := by
  unfold UiManager.Rect
  rcases st.resolveColor cIdx with e | col <;> rfl

/-- Inversion of a successful `Button` call: the returned rectangle is the
10-padded measured rectangle, hover is the cursor test on it, the clicked
flag is exactly `hovered AND mouseDown AND NOT prev_mouse_down`, the two
draw calls (background fill, then label blit) are resolved against the
post-callback state, and the final state is the post-callback state with
the label's `prev_mouse_down` overwritten by this frame's sample. -/
theorem Button_ok_inv (inp : FrameInput) (st : UiManager) (L : String)
    (P : Nat2) (F : String) (f : UiManager → UiManager) (a b c : Int)
    (stR : UiManager) (ds : List DrawCall) (rc : GeomRect) (ck hv : Bool)
    (h : UiManager.Button inp st L P F f a b c = .ok (stR, ds, rc, ck, hv)) :
    rc = buttonRectFrom (mkRect P (inp.measure F L)) ∧
    hv = buttonHoverFrom inp (mkRect P (inp.measure F L)) ∧
    ck = (hv && inp.leftDown && !(buttonPrev st L)) ∧
    (∃ bg : DrawCall, ∃ textDraws : List DrawCall,
      (buttonPostCb inp st L f (mkRect P (inp.measure F L))).Rect rc.XY rc.WH
        (if hv then b else c) = .ok bg ∧
      (∃ r2 : GeomRect, UiManager.Text inp.measure
        (buttonPostCb inp st L f (mkRect P (inp.measure F L))) L P F a false =
          .ok (r2, textDraws)) ∧
      ds = bg :: textDraws) ∧
    (∃ r : ButtonRecord,
      dictLookup (buttonPostCb inp st L f (mkRect P (inp.measure F L))).Buttons L =
        some r ∧
      stR = { buttonPostCb inp st L f (mkRect P (inp.measure F L)) with
              Buttons := dictInsert
                (buttonPostCb inp st L f (mkRect P (inp.measure F L))).Buttons L
                { r with prev_mouse_down := inp.leftDown } }) := by
  rcases hT : UiManager.Text inp.measure (buttonInitState st L) L P F a true
    with e | ⟨TextRect, junk⟩
  · have hbad : UiManager.Button inp st L P F f a b c = .error e := by
      unfold UiManager.Button
      rw [hT]
    rw [hbad] at h
    exact Except.noConfusion h
  · have hfin : buttonFinish inp st L P F f a b c TextRect =
        .ok (stR, ds, rc, ck, hv) := by
      rw [← h]
      unfold UiManager.Button
      rw [hT]
    obtain ⟨hTR, -⟩ := Text_ok_inv _ _ _ _ _ _ _ _ _ hT
    subst hTR
    unfold buttonFinish at hfin
    rcases hR : (buttonPostCb inp st L f (mkRect P (inp.measure F L))).Rect
        (buttonRectFrom (mkRect P (inp.measure F L))).XY
        (buttonRectFrom (mkRect P (inp.measure F L))).WH
        (if buttonHoverFrom inp (mkRect P (inp.measure F L)) then b else c)
      with e | bg <;> rw [hR] at hfin
    · exact Except.noConfusion hfin
    · have hfin2 : (match UiManager.Text inp.measure
          (buttonPostCb inp st L f (mkRect P (inp.measure F L))) L P F a false with
        | .error e => (.error e :
            Except UiError (UiManager × List DrawCall × GeomRect × Bool × Bool))
        | .ok (_, textDraws) =>
          match dictLookup (buttonPostCb inp st L f (mkRect P (inp.measure F L))).Buttons L with
          | none => .error .keyError
          | some r =>
            .ok ({ buttonPostCb inp st L f (mkRect P (inp.measure F L)) with
                   Buttons := dictInsert
                     (buttonPostCb inp st L f (mkRect P (inp.measure F L))).Buttons L
                     { r with prev_mouse_down := UiManager.IsClick inp .Left } },
                 bg :: textDraws, buttonRectFrom (mkRect P (inp.measure F L)),
                 buttonClickFires inp st L (mkRect P (inp.measure F L)),
                 buttonHoverFrom inp (mkRect P (inp.measure F L)))) =
          .ok (stR, ds, rc, ck, hv) := hfin
      rcases hT2 : UiManager.Text inp.measure
          (buttonPostCb inp st L f (mkRect P (inp.measure F L))) L P F a false
        with e | ⟨r2, textDraws⟩ <;> rw [hT2] at hfin2
      · exact Except.noConfusion hfin2
      · have hfin3 : (match dictLookup
            (buttonPostCb inp st L f (mkRect P (inp.measure F L))).Buttons L with
          | none => (.error .keyError :
              Except UiError (UiManager × List DrawCall × GeomRect × Bool × Bool))
          | some r =>
            .ok ({ buttonPostCb inp st L f (mkRect P (inp.measure F L)) with
                   Buttons := dictInsert
                     (buttonPostCb inp st L f (mkRect P (inp.measure F L))).Buttons L
                     { r with prev_mouse_down := UiManager.IsClick inp .Left } },
                 bg :: textDraws, buttonRectFrom (mkRect P (inp.measure F L)),
                 buttonClickFires inp st L (mkRect P (inp.measure F L)),
                 buttonHoverFrom inp (mkRect P (inp.measure F L)))) =
            .ok (stR, ds, rc, ck, hv) := hfin2
        rcases hLook : dictLookup
            (buttonPostCb inp st L f (mkRect P (inp.measure F L))).Buttons L
          with _ | r <;> rw [hLook] at hfin3
        · exact Except.noConfusion hfin3
        · have hmain := Except.ok.inj hfin3
          obtain ⟨h1, hr1⟩ := Prod.mk.inj hmain
          obtain ⟨h2, hr2⟩ := Prod.mk.inj hr1
          obtain ⟨h3, hr3⟩ := Prod.mk.inj hr2
          obtain ⟨h4, h5⟩ := Prod.mk.inj hr3
          subst h1
          subst h2
          subst h3
          subst h4
          subst h5
          refine ⟨rfl, rfl, rfl, ⟨bg, textDraws, hR, ⟨r2, rfl⟩, rfl⟩,
                  ⟨r, rfl, rfl⟩⟩

/-- Inversion of a successful `Checkbox` call: the final state stores the
stepped record for the label, the returned checked flag is the stepped
record's `checked`, and the hovered flag is the 20×20 box hover test. -/
theorem Checkbox_ok_inv (inp : FrameInput) (st : UiManager) (L : String)
    (P : Nat2) (F : String) (b1 b2 b3 b4 : Int) (stR : UiManager)
    (ds : List DrawCall) (ck hov : Bool)
    (h : UiManager.Checkbox inp st L P F b1 b2 b3 b4 = .ok (stR, ds, ck, hov)) :
    stR = checkboxSt1 inp st L P ∧
    ck = (checkboxStep inp st L P).checked ∧
    hov = checkboxHovered inp P := by
  unfold UiManager.Checkbox at h
  rcases hS1 : (if checkboxHovered inp P && !(checkboxRec0 st L).checked then
      ((checkboxInitState st L).Rect (P + Nat2.mk 4 4) ⟨20 - 8, 20 - 8⟩ b3).map
        (fun d => [d])
    else .ok []) with e | hoverDraws <;> rw [hS1] at h
  · exact Except.noConfusion h
  · have h2 : (match (if (checkboxStep inp st L P).checked then
        ((checkboxSt1 inp st L P).Rect (P + Nat2.mk 4 4) ⟨20 - 8, 20 - 8⟩ b2).map
          (fun d => [d])
      else (.ok [] : Except UiError (List DrawCall))) with
      | .error e => (.error e :
          Except UiError (UiManager × List DrawCall × Bool × Bool))
      | .ok checkedDraws =>
        match (checkboxSt1 inp st L P).RectBorder P ⟨20, 20⟩ b1 2 with
        | .error e => .error e
        | .ok borderDraws =>
          match UiManager.Text inp.measure (checkboxSt1 inp st L P) L
              (P + Nat2.mk (20 + 10) 0) F b4 false with
          | .error e => .error e
          | .ok (_, textDraws) =>
            .ok (checkboxSt1 inp st L P,
                 hoverDraws ++ checkedDraws ++ borderDraws ++ textDraws,
                 (checkboxStep inp st L P).checked,
                 checkboxHovered inp P)) = .ok (stR, ds, ck, hov) := h
    rcases hS2 : (if (checkboxStep inp st L P).checked then
        ((checkboxSt1 inp st L P).Rect (P + Nat2.mk 4 4) ⟨20 - 8, 20 - 8⟩ b2).map
          (fun d => [d])
      else (.ok [] : Except UiError (List DrawCall))) with e | checkedDraws <;>
      rw [hS2] at h2
    · exact Except.noConfusion h2
    · rcases hS3 : (checkboxSt1 inp st L P).RectBorder P ⟨20, 20⟩ b1 2
        with e | borderDraws <;> rw [hS3] at h2
      · exact Except.noConfusion h2
      · rcases hS4 : UiManager.Text inp.measure (checkboxSt1 inp st L P) L
            (P + Nat2.mk (20 + 10) 0) F b4 false with e | ⟨r4, textDraws⟩ <;>
          rw [hS4] at h2
        · exact Except.noConfusion h2
        · have hmain := Except.ok.inj h2
          obtain ⟨h1, hr1⟩ := Prod.mk.inj hmain
          obtain ⟨hd, hr2⟩ := Prod.mk.inj hr1
          obtain ⟨h3, h4⟩ := Prod.mk.inj hr2
          exact ⟨h1.symm, h3.symm, h4.symm⟩

/-- Palette resolution fails exactly when the index is outside Python's
accepted range `[-len, len)`. -/
theorem resolveColor_out (st : UiManager) (idx : Int)
    (h : idx < -(st.ColorPalette.length : Int) ∨
         (st.ColorPalette.length : Int) ≤ idx) :
    st.resolveColor idx = .error .indexError := by
  have hlen : st.ColorPaletteMode.length = st.ColorPalette.length := by
    unfold UiManager.ColorPaletteMode
    split <;> simp
  have hnone : pyIndex st.ColorPaletteMode idx = none := by
    unfold pyIndex
    rcases h with h | h
    · rw [if_neg (by omega), if_pos (by omega)]
    · rw [if_pos (by omega)]
      rw [List.get?_eq_none]
      omega
  unfold UiManager.resolveColor
  rw [hnone]

/-- `buttonInitState` leaves the palette and mode untouched. -/
theorem buttonInitState_resolveColor (st : UiManager) (L : String) (idx : Int) :
    (buttonInitState st L).resolveColor idx = st.resolveColor idx := by
  unfold buttonInitState
  split <;> rfl

/-- `checkboxInitState` leaves the palette and mode untouched. -/
theorem checkboxInitState_resolveColor (st : UiManager) (L : String) (idx : Int) :
    (checkboxInitState st L).resolveColor idx = st.resolveColor idx := by
  unfold checkboxInitState
  split <;> rfl

/-- `checkboxSt1` leaves the palette and mode untouched. -/
theorem checkboxSt1_resolveColor (inp : FrameInput) (st : UiManager)
    (L : String) (P : Nat2) (idx : Int) :
    (checkboxSt1 inp st L P).resolveColor idx = st.resolveColor idx := by
  unfold checkboxSt1 checkboxInitState
  split <;> rfl

/-- A failing color resolution makes `Rect` fail with the same error. -/
theorem Rect_error_color (st : UiManager) (Pos Size : Nat2) (idx : Int)
    (e : UiError) (h : st.resolveColor idx = .error e) :
    st.Rect Pos Size idx = .error e := by
  rw [Rect_eq, h]
  rfl

/-- A failing color resolution makes `Text` fail with the same error. -/
theorem Text_error_color (m : String → String → Nat2) (st : UiManager)
    (Str : String) (Pos : Nat2) (F : String) (idx : Int) (nd : Bool)
    (e : UiError) (h : st.resolveColor idx = .error e) :
    UiManager.Text m st Str Pos F idx nd = .error e := by
  unfold UiManager.Text
  rw [h]

/-- A failing color resolution makes `RectBorder` fail with the same
error (its first strip already fails). -/
theorem RectBorder_error_color (st : UiManager) (Pos Size : Nat2) (idx t : Int)
    (e : UiError) (h : st.resolveColor idx = .error e) :
    st.RectBorder Pos Size idx t = .error e := by
  unfold UiManager.RectBorder
  rw [Rect_error_color st Pos ⟨Size.X, t⟩ idx e h]

/-! ## Claim theorems -/

/-- C4: with dark mode on, resolving palette index `idx` yields
`palette[idx]`; with dark mode off it yields `palette[len - 1 - idx]`, for
every `idx` in `[0, len)` — the light mode is a full list reverse of the
same palette. -/
theorem palette_resolve_mode (st : UiManager) (idx : Nat)
    (h : idx < st.ColorPalette.length) :
    (st.IsDarkMode = true →
      st.resolveColor (idx : Int) = .ok (st.ColorPalette.get ⟨idx, h⟩)) ∧
    (st.IsDarkMode = false →
      st.resolveColor (idx : Int) =
        .ok (st.ColorPalette.get
          ⟨st.ColorPalette.length - 1 - idx, by omega⟩)) := by
  constructor
  · intro hd
    have hmode : st.ColorPaletteMode = st.ColorPalette := by
      unfold UiManager.ColorPaletteMode
      rw [hd]
      simp
    have : pyIndex st.ColorPalette (idx : Int) =
        some (st.ColorPalette.get ⟨idx, h⟩) := by
      unfold pyIndex
      rw [if_pos (Int.natCast_nonneg idx), Int.toNat_natCast]
      exact List.get?_eq_get h
    unfold UiManager.resolveColor
    rw [hmode, this]
  · intro hd
    have hmode : st.ColorPaletteMode = st.ColorPalette.reverse := by
      unfold UiManager.ColorPaletteMode
      rw [hd]
      simp
    have hlen : idx < st.ColorPalette.reverse.length := by simpa using h
    have : pyIndex st.ColorPalette.reverse (idx : Int) =
        some (st.ColorPalette.get ⟨st.ColorPalette.length - 1 - idx, by omega⟩) := by
      unfold pyIndex
      rw [if_pos (Int.natCast_nonneg idx), Int.toNat_natCast,
          List.get?_eq_get hlen]
      congr 1
      rw [List.get_eq_getElem, List.get_eq_getElem, List.getElem_reverse]
    unfold UiManager.resolveColor
    rw [hmode, this]

/-- C4 witness: in the five-color default palette, dark mode resolves
index 1 to the second color and light mode resolves index 1 to the
fourth. -/
theorem palette_resolve_mode_witness :
    (UiManager.init.IsDarkMode = true →
      UiManager.init.resolveColor ((1 : Nat) : Int) =
        .ok (UiManager.init.ColorPalette.get ⟨1, by decide⟩)) ∧
    (UiManager.init.IsDarkMode = false →
      UiManager.init.resolveColor ((1 : Nat) : Int) =
        .ok (UiManager.init.ColorPalette.get
          ⟨UiManager.init.ColorPalette.length - 1 - 1, by decide⟩)) :=
  palette_resolve_mode UiManager.init 1 (by decide)

/-- A failing color resolution (for the text color) makes `Button` fail
with the same error before any draw. -/
theorem Button_error_color (inp : FrameInput) (st : UiManager) (L : String)
    (P : Nat2) (F : String) (f : UiManager → UiManager) (b c idx : Int)
    (hres : st.resolveColor idx = .error .indexError) :
    UiManager.Button inp st L P F f idx b c = .error .indexError := by
  unfold UiManager.Button
  rw [Text_error_color inp.measure (buttonInitState st L) L P F idx true
    .indexError (by rw [buttonInitState_resolveColor]; exact hres)]

/-- A color resolution failing for every palette slot makes `Checkbox`
fail with that error (at the latest at the always-drawn border). -/
theorem Checkbox_error_all (inp : FrameInput) (st : UiManager) (L : String)
    (P : Nat2) (F : String) (idx : Int)
    (hres : st.resolveColor idx = .error .indexError) :
    UiManager.Checkbox inp st L P F idx idx idx idx = .error .indexError := by
  have hRectInit : (checkboxInitState st L).Rect (P + Nat2.mk 4 4)
      ⟨20 - 8, 20 - 8⟩ idx = .error .indexError :=
    Rect_error_color _ _ _ _ _ (by rw [checkboxInitState_resolveColor]; exact hres)
  have hRectSt1 : (checkboxSt1 inp st L P).Rect (P + Nat2.mk 4 4)
      ⟨20 - 8, 20 - 8⟩ idx = .error .indexError :=
    Rect_error_color _ _ _ _ _ (by rw [checkboxSt1_resolveColor]; exact hres)
  have hBorder : (checkboxSt1 inp st L P).RectBorder P ⟨20, 20⟩ idx 2 =
      .error .indexError :=
    RectBorder_error_color _ _ _ _ _ _ (by rw [checkboxSt1_resolveColor]; exact hres)
  unfold UiManager.Checkbox
  by_cases hcond : (checkboxHovered inp P && !(checkboxRec0 st L).checked) = true
  · rw [if_pos hcond, hRectInit]
    rfl
  · rw [if_neg hcond]
    show (match (if (checkboxStep inp st L P).checked then
        ((checkboxSt1 inp st L P).Rect (P + Nat2.mk 4 4) ⟨20 - 8, 20 - 8⟩ idx).map
          (fun d => [d])
      else (.ok [] : Except UiError (List DrawCall))) with
      | .error e => (.error e :
          Except UiError (UiManager × List DrawCall × Bool × Bool))
      | .ok checkedDraws =>
        match (checkboxSt1 inp st L P).RectBorder P ⟨20, 20⟩ idx 2 with
        | .error e => .error e
        | .ok borderDraws =>
          match UiManager.Text inp.measure (checkboxSt1 inp st L P) L
              (P + Nat2.mk (20 + 10) 0) F idx false with
          | .error e => .error e
          | .ok (_, textDraws) =>
            .ok (checkboxSt1 inp st L P,
                 [] ++ checkedDraws ++ borderDraws ++ textDraws,
                 (checkboxStep inp st L P).checked,
                 checkboxHovered inp P)) = .error .indexError
    by_cases hck : (checkboxStep inp st L P).checked = true
    · rw [if_pos hck, hRectSt1]
      try rfl
    · rw [if_neg hck, hBorder]
      try rfl

/-- Palette resolution succeeds with Python wraparound for a negative
index in `[-len, 0)`. -/
theorem resolveColor_neg_wraps (st : UiManager) (idx : Int)
    (h1 : -(st.ColorPalette.length : Int) ≤ idx) (h2 : idx < 0) :
    ∃ col : Vec4, st.resolveColor idx = .ok col := by
  have hlen : st.ColorPaletteMode.length = st.ColorPalette.length := by
    unfold UiManager.ColorPaletteMode
    split <;> simp
  have hlt : ((st.ColorPaletteMode.length : Int) + idx).toNat <
      st.ColorPaletteMode.length := by omega
  refine ⟨st.ColorPaletteMode.get ⟨_, hlt⟩, ?_⟩
  unfold UiManager.resolveColor
  have hp : pyIndex st.ColorPaletteMode idx =
      some (st.ColorPaletteMode.get ⟨_, hlt⟩) := by
    unfold pyIndex
    rw [if_neg (by omega), if_neg (by omega)]
    exact List.get?_eq_get hlt
  rw [hp]

/-- C5 counterexample: with the default five-color palette in dark mode,
`Rect` at index `-1` succeeds (Python indexing wraps a negative index) and
fills with the last palette color — it does not raise an index error. -/
theorem palette_negative_index_counterexample :
    UiManager.Rect UiManager.init ⟨0, 0⟩ ⟨1, 1⟩ (-1) =
      .ok (.fillRect ⟨0, 0⟩ ⟨1, 1⟩ ⟨0, 0.302, 0.149, 1⟩) := rfl

/-- C5 amended: an index outside Python's accepted range `[-len, len)`
makes every color-resolving operation (`Rect`, `Text`, `Button`,
`Checkbox`) fail immediately with an index error and no draw; a negative
index in `[-len, -1]`, however, wraps around Python-style and succeeds. -/
theorem palette_index_amended (inp : FrameInput) (st : UiManager) (L : String)
    (Pos Size P2 : Nat2) (F : String) (f : UiManager → UiManager)
    (b c idx : Int) :
    ((idx < -(st.ColorPalette.length : Int) ∨
      (st.ColorPalette.length : Int) ≤ idx) →
      st.Rect Pos Size idx = .error .indexError ∧
      (∀ (m : String → String → Nat2) (Str : String) (nd : Bool),
        UiManager.Text m st Str Pos F idx nd = .error .indexError) ∧
      UiManager.Button inp st L P2 F f idx b c = .error .indexError ∧
      UiManager.Checkbox inp st L P2 F idx idx idx idx = .error .indexError) ∧
    ((-(st.ColorPalette.length : Int) ≤ idx ∧ idx < 0) →
      ∃ col : Vec4, st.resolveColor idx = .ok col ∧
        st.Rect Pos Size idx = .ok (.fillRect Pos Size col)) := by
  constructor
  · intro h
    have hres := resolveColor_out st idx h
    exact ⟨Rect_error_color st Pos Size idx _ hres,
           fun m Str nd => Text_error_color m st Str Pos F idx nd _ hres,
           Button_error_color inp st L P2 F f b c idx hres,
           Checkbox_error_all inp st L P2 F idx hres⟩
  · rintro ⟨h1, h2⟩
    obtain ⟨col, hcol⟩ := resolveColor_neg_wraps st idx h1 h2
    exact ⟨col, hcol, by rw [Rect_eq, hcol]; rfl⟩

/-- C5 amended witness: in the default palette (length 5), index 7 makes
`Rect` fail with an index error, while index -3 resolves and fills. -/
theorem palette_index_amended_witness :
    UiManager.Rect UiManager.init ⟨0, 0⟩ ⟨1, 1⟩ 7 = .error .indexError ∧
    ∃ col : Vec4, UiManager.init.resolveColor (-3) = .ok col ∧
      UiManager.Rect UiManager.init ⟨0, 0⟩ ⟨1, 1⟩ (-3) =
        .ok (.fillRect ⟨0, 0⟩ ⟨1, 1⟩ col) :=
  ⟨((palette_index_amended inpDown UiManager.init "x" ⟨0, 0⟩ ⟨1, 1⟩ ⟨0, 0⟩
      "font" (fun s => s) 0 0 7).1 (by decide)).1,
   (palette_index_amended inpDown UiManager.init "x" ⟨0, 0⟩ ⟨1, 1⟩ ⟨0, 0⟩
      "font" (fun s => s) 0 0 (-3)).2 ⟨by decide, by decide⟩⟩

/-- C6: `PointInsideRect` is exactly the four inclusive bound checks; in
particular every boundary point passes and every point at least one unit
outside on either axis fails. -/
theorem pointInsideRect_boundary_outside (p rpos rsize : Nat2) :
    (UiManager.PointInsideRect p rpos rsize = true ↔
      (rpos.X ≤ p.X ∧ p.X ≤ rpos.X + rsize.X ∧
       rpos.Y ≤ p.Y ∧ p.Y ≤ rpos.Y + rsize.Y)) ∧
    (((rpos.X ≤ p.X ∧ p.X ≤ rpos.X + rsize.X ∧
       rpos.Y ≤ p.Y ∧ p.Y ≤ rpos.Y + rsize.Y) ∧
      (p.X = rpos.X ∨ p.X = rpos.X + rsize.X ∨
       p.Y = rpos.Y ∨ p.Y = rpos.Y + rsize.Y)) →
      UiManager.PointInsideRect p rpos rsize = true) ∧
    ((p.X ≤ rpos.X - 1 ∨ rpos.X + rsize.X + 1 ≤ p.X ∨
      p.Y ≤ rpos.Y - 1 ∨ rpos.Y + rsize.Y + 1 ≤ p.Y) →
      UiManager.PointInsideRect p rpos rsize = false) := by
  have hiff : UiManager.PointInsideRect p rpos rsize = true ↔
      (rpos.X ≤ p.X ∧ p.X ≤ rpos.X + rsize.X ∧
       rpos.Y ≤ p.Y ∧ p.Y ≤ rpos.Y + rsize.Y) := by
    unfold UiManager.PointInsideRect
    simp [and_assoc]
  refine ⟨hiff, fun h => hiff.mpr h.1, fun h => ?_⟩
  rw [Bool.eq_false_iff, Ne, hiff]
  omega

/-- C6 witness: the top-left corner of a 4×4 box at the origin is inside;
the point one unit left of the box is not. -/
theorem pointInsideRect_boundary_outside_witness :
    UiManager.PointInsideRect ⟨0, 0⟩ ⟨0, 0⟩ ⟨4, 4⟩ = true ∧
    UiManager.PointInsideRect ⟨-1, 2⟩ ⟨0, 0⟩ ⟨4, 4⟩ = false :=
  ⟨(pointInsideRect_boundary_outside ⟨0, 0⟩ ⟨0, 0⟩ ⟨4, 4⟩).2.1
     (by refine ⟨⟨?_, ?_, ?_, ?_⟩, ?_⟩ <;> simp),
   (pointInsideRect_boundary_outside ⟨-1, 2⟩ ⟨0, 0⟩ ⟨4, 4⟩).2.2 (by left; decide)⟩

/-- C7: `Text` with `NoDraw=true` is exactly `Text` with `NoDraw=false`
with its draw list dropped — same rectangle (position and measured size),
same error behaviour, and zero draw calls issued. -/
theorem text_noDraw_measure_only (m : String → String → Nat2)
    (st : UiManager) (Str : String) (Pos : Nat2) (F : String) (cIdx : Int) :
    UiManager.Text m st Str Pos F cIdx true =
      (UiManager.Text m st Str Pos F cIdx false).map
        (fun x => (x.1, ([] : List DrawCall))) := by
  unfold UiManager.Text
  rcases hc : st.resolveColor cIdx with e | col
  · rfl
  · by_cases h1 : st.Fonts.length = 0 <;> by_cases h2 : F ∈ st.Fonts <;>
      simp [h1, h2, Except.map]

/-- C8: `TextWrapped` splits on newline and draws each non-empty line at
`position + (0, lineIndex * 16)`, the skipped empty lines still consuming
an index; in particular `"a\n\nb"` draws exactly two lines, at vertical
offsets 0 and 32. -/
theorem textWrapped_two_lines (m : String → String → Nat2) (st : UiManager)
    (Pos : Nat2) (F : String) (cIdx : Int) (col : Vec4)
    (hc : st.resolveColor cIdx = .ok col) (h1 : st.Fonts.length ≠ 0)
    (h2 : st.Fonts.contains F = true) :
    (∀ Str : String, UiManager.TextWrapped m st Str Pos F cIdx =
      .ok ((pySplitNl Str).enum.filterMap (fun p =>
        if p.2 = "" then none
        else some (.blit p.2 (Pos + Nat2.mk 0 ((p.1 : Int) * 16)) (m F p.2) col)))) ∧
    UiManager.TextWrapped m st "a\n\nb" Pos F cIdx =
      .ok [.blit "a" Pos (m F "a") col,
           .blit "b" (Pos + Nat2.mk 0 32) (m F "b") col] := by
  have haux : ∀ lines : List (Nat × String),
      UiManager.TextWrappedAux m st Pos F cIdx lines =
        .ok (lines.filterMap (fun p =>
          if p.2 = "" then none
          else some (.blit p.2 (Pos + Nat2.mk 0 ((p.1 : Int) * 16)) (m F p.2) col))) := by
    intro lines
    induction lines with
    | nil => rfl
    | cons p rest ih =>
      obtain ⟨i, s⟩ := p
      by_cases hs : s = ""
      · simp [UiManager.TextWrappedAux, hs, ih]
      · rw [show UiManager.TextWrappedAux m st Pos F cIdx ((i, s) :: rest) =
            (if s = "" then UiManager.TextWrappedAux m st Pos F cIdx rest
             else match UiManager.Text m st s (Pos + Nat2.mk 0 ((i : Int) * 16))
                 F cIdx false with
               | .error e => .error e
               | .ok (_, ds) =>
                 match UiManager.TextWrappedAux m st Pos F cIdx rest with
                 | .error e => .error e
                 | .ok rest2 => .ok (ds ++ rest2)) from rfl]
        rw [if_neg hs,
            Text_eq_ok m st s (Pos + Nat2.mk 0 ((i : Int) * 16)) F cIdx false
              col hc h1 h2, ih]
        simp [hs]
  refine ⟨fun Str => haux _, ?_⟩
  rw [UiManager.TextWrapped, haux]
  have hsplit : (pySplitNl "a\n\nb").enum = [(0, "a"), (1, ""), (2, "b")] := rfl
  rw [hsplit]
  show Except.ok [DrawCall.blit "a" (Pos + Nat2.mk 0 (((0 : Nat) : Int) * 16))
      (m F "a") col,
    DrawCall.blit "b" (Pos + Nat2.mk 0 (((2 : Nat) : Int) * 16)) (m F "b") col] = _
  obtain ⟨x, y⟩ := Pos
  show Except.ok [DrawCall.blit "a" ⟨x + 0, y + ((0 : Nat) : Int) * 16⟩ (m F "a") col,
    DrawCall.blit "b" ⟨x + 0, y + ((2 : Nat) : Int) * 16⟩ (m F "b") col] = _
  norm_num
  show Nat2.mk x (y + 32) = Nat2.mk (x + 0) (y + 32)
  norm_num

/-- The `prev_mouse_down` a `Button` call reads, in terms of the original
state: the stored value when the record exists, `true` (pre-pressed) when
it does not. -/
theorem buttonPrev_eq (st : UiManager) (L : String) :
    buttonPrev st L =
      ((dictLookup st.Buttons L).getD ⟨true, true, true⟩).prev_mouse_down := by
  unfold buttonPrev buttonInitState
  by_cases h : (dictLookup st.Buttons L).isSome
  · rw [if_pos h]
  · rw [if_neg h]
    show ((dictLookup (dictInsert st.Buttons L ⟨true, true, true⟩) L).getD
      ⟨true, true, true⟩).prev_mouse_down = _
    rw [dictLookup_dictInsert_self, Option.not_isSome_iff_eq_none.mp h]
    rfl

/-- The two facts claims about `Button` rely on most: the clicked flag is
`hovered AND mouseDown AND NOT prev`, and the final state stores this
frame's mouse-down sample as `prev_mouse_down`. -/
theorem Button_ok_clicked_prev {inp : FrameInput} {st : UiManager}
    {L : String} {P : Nat2} {F : String} {f : UiManager → UiManager}
    {a b c : Int} {stR : UiManager} {ds : List DrawCall} {rc : GeomRect}
    {ck hv : Bool}
    (h : UiManager.Button inp st L P F f a b c = .ok (stR, ds, rc, ck, hv)) :
    ck = (hv && inp.leftDown && !(buttonPrev st L)) ∧
    ∃ r : ButtonRecord, dictLookup stR.Buttons L = some r ∧
      r.prev_mouse_down = inp.leftDown := by
  obtain ⟨-, -, hck, -, ⟨r, hLook, hstR⟩⟩ :=
    Button_ok_inv inp st L P F f a b c stR ds rc ck hv h
  refine ⟨hck, ⟨{ r with prev_mouse_down := inp.leftDown }, ?_, rfl⟩⟩
  rw [hstR]
  exact dictLookup_dictInsert_self _ _ _

/-- `buttonInitState` only touches the `Buttons` dictionary. -/
theorem buttonInitState_fields (st : UiManager) (L : String) :
    (buttonInitState st L).Running = st.Running ∧
    (buttonInitState st L).Fonts = st.Fonts ∧
    (buttonInitState st L).ActiveMenu = st.ActiveMenu ∧
    (buttonInitState st L).CheckboxStates = st.CheckboxStates ∧
    (buttonInitState st L).ColorPalette = st.ColorPalette ∧
    (buttonInitState st L).IsDarkMode = st.IsDarkMode := by
  unfold buttonInitState
  split <;> exact ⟨rfl, rfl, rfl, rfl, rfl, rfl⟩

/-- `buttonInitState` does not change other labels' button records. -/
theorem buttonInitState_lookup_ne (st : UiManager) (L L2 : String)
    (hne : L2 ≠ L) :
    dictLookup (buttonInitState st L).Buttons L2 = dictLookup st.Buttons L2 := by
  unfold buttonInitState
  split
  · rfl
  · show dictLookup (dictInsert st.Buttons L ⟨true, true, true⟩) L2 = _
    exact dictLookup_dictInsert_ne _ _ _ _ hne

/-- The record a `Checkbox` call works on, in terms of the original state:
the stored record when it exists, `{checked=False, mouse_down=False}`
otherwise. -/
theorem checkboxRec0_eq (st : UiManager) (L : String) :
    checkboxRec0 st L = (dictLookup st.CheckboxStates L).getD ⟨false, false⟩ := by
  unfold checkboxRec0 checkboxInitState
  by_cases h : (dictLookup st.CheckboxStates L).isSome
  · rw [if_pos h]
  · rw [if_neg h]
    show (dictLookup (dictInsert st.CheckboxStates L ⟨false, false⟩) L).getD
      ⟨false, false⟩ = _
    rw [dictLookup_dictInsert_self, Option.not_isSome_iff_eq_none.mp h]
    rfl

/-- C1: on a label whose record exists with `prev_mouse_down = false`,
four successive hovered `Button` calls with left-button samples
`[down, down, up, down]` return clicked `[true, false, false, true]` —
clicked fires exactly when hovered, down, and the stored prev is false —
and every call stores its sampled mouse-down state in `prev_mouse_down`. -/
theorem button_click_edge_sequence
    {inpD inpU : FrameInput} {st st1 st2 st3 st4 : UiManager} {L : String}
    {P : Nat2} {F : String} {f1 f2 f3 f4 : UiManager → UiManager}
    {a b c : Int} {ds1 ds2 ds3 ds4 : List DrawCall}
    {rc1 rc2 rc3 rc4 : GeomRect} {c1 c2 c3 c4 h1 h2 h3 h4 : Bool}
    {r0 : ButtonRecord}
    (hD : inpD.leftDown = true) (hU : inpU.leftDown = false)
    (hrec : dictLookup st.Buttons L = some r0)
    (hprev : r0.prev_mouse_down = false)
    (e1 : UiManager.Button inpD st L P F f1 a b c = .ok (st1, ds1, rc1, c1, h1))
    (hh1 : h1 = true)
    (e2 : UiManager.Button inpD st1 L P F f2 a b c = .ok (st2, ds2, rc2, c2, h2))
    (hh2 : h2 = true)
    (e3 : UiManager.Button inpU st2 L P F f3 a b c = .ok (st3, ds3, rc3, c3, h3))
    (hh3 : h3 = true)
    (e4 : UiManager.Button inpD st3 L P F f4 a b c = .ok (st4, ds4, rc4, c4, h4))
    (hh4 : h4 = true) :
    (c1 = true ∧ c2 = false ∧ c3 = false ∧ c4 = true) ∧
    (∃ q1, dictLookup st1.Buttons L = some q1 ∧ q1.prev_mouse_down = true) ∧
    (∃ q2, dictLookup st2.Buttons L = some q2 ∧ q2.prev_mouse_down = true) ∧
    (∃ q3, dictLookup st3.Buttons L = some q3 ∧ q3.prev_mouse_down = false) ∧
    (∃ q4, dictLookup st4.Buttons L = some q4 ∧ q4.prev_mouse_down = true) := by
  have hbp1 : buttonPrev st L = false := by
    rw [buttonPrev_eq, hrec]
    exact hprev
  obtain ⟨hc1, q1, hq1l, hq1v⟩ := Button_ok_clicked_prev e1
  rw [hh1, hD, hbp1] at hc1
  simp at hc1
  rw [hD] at hq1v
  have hbp2 : buttonPrev st1 L = true := by
    rw [buttonPrev_eq, hq1l]
    exact hq1v
  obtain ⟨hc2, q2, hq2l, hq2v⟩ := Button_ok_clicked_prev e2
  rw [hh2, hD, hbp2] at hc2
  simp at hc2
  rw [hD] at hq2v
  obtain ⟨hc3, q3, hq3l, hq3v⟩ := Button_ok_clicked_prev e3
  rw [hh3, hU] at hc3
  simp at hc3
  rw [hU] at hq3v
  have hbp4 : buttonPrev st3 L = false := by
    rw [buttonPrev_eq, hq3l]
    exact hq3v
  obtain ⟨hc4, q4, hq4l, hq4v⟩ := Button_ok_clicked_prev e4
  rw [hh4, hD, hbp4] at hc4
  simp at hc4
  rw [hD] at hq4v
  exact ⟨⟨hc1, hc2, hc3, hc4⟩, ⟨q1, hq1l, hq1v⟩, ⟨q2, hq2l, hq2v⟩,
         ⟨q3, hq3l, hq3v⟩, ⟨q4, hq4l, hq4v⟩⟩

/-- C1 witness: the concrete four-frame run `btnRun1 … btnRun4` on label
"btn" (record present with `prev_mouse_down = false`), hovered throughout,
with samples `[down, down, up, down]`. -/
theorem button_click_edge_sequence_witness :
    (btnClicked btnRun1 = true ∧ btnClicked btnRun2 = false ∧
     btnClicked btnRun3 = false ∧ btnClicked btnRun4 = true) ∧
    (∃ q1, dictLookup (btnState btnRun1).Buttons "btn" = some q1 ∧
      q1.prev_mouse_down = true) ∧
    (∃ q2, dictLookup (btnState btnRun2).Buttons "btn" = some q2 ∧
      q2.prev_mouse_down = true) ∧
    (∃ q3, dictLookup (btnState btnRun3).Buttons "btn" = some q3 ∧
      q3.prev_mouse_down = false) ∧
    (∃ q4, dictLookup (btnState btnRun4).Buttons "btn" = some q4 ∧
      q4.prev_mouse_down = true) :=
  button_click_edge_sequence (rfl : inpDown.leftDown = true)
    (rfl : inpUp.leftDown = false)
    (rfl : dictLookup stReady.Buttons "btn" = some ⟨true, true, false⟩)
    (rfl : ButtonRecord.prev_mouse_down ⟨true, true, false⟩ = false)
    (rfl : UiManager.Button inpDown stReady "btn" ⟨100, 100⟩ "font"
      (fun s => s) 2 1 3 =
      .ok (btnState btnRun1, btnDraws btnRun1, btnRect btnRun1,
           btnClicked btnRun1, btnHovered btnRun1))
    (rfl : btnHovered btnRun1 = true)
    (rfl : UiManager.Button inpDown (btnState btnRun1) "btn" ⟨100, 100⟩ "font"
      (fun s => s) 2 1 3 =
      .ok (btnState btnRun2, btnDraws btnRun2, btnRect btnRun2,
           btnClicked btnRun2, btnHovered btnRun2))
    (rfl : btnHovered btnRun2 = true)
    (rfl : UiManager.Button inpUp (btnState btnRun2) "btn" ⟨100, 100⟩ "font"
      (fun s => s) 2 1 3 =
      .ok (btnState btnRun3, btnDraws btnRun3, btnRect btnRun3,
           btnClicked btnRun3, btnHovered btnRun3))
    (rfl : btnHovered btnRun3 = true)
    (rfl : UiManager.Button inpDown (btnState btnRun3) "btn" ⟨100, 100⟩ "font"
      (fun s => s) 2 1 3 =
      .ok (btnState btnRun4, btnDraws btnRun4, btnRect btnRun4,
           btnClicked btnRun4, btnHovered btnRun4))
    (rfl : btnHovered btnRun4 = true)

/-- C2: on the first `Button` call with an unseen label, the record is
created pre-pressed, so the call returns `clicked = false` (even with the
pointer held down and hovering), never invokes the callback (the result
does not depend on it), and stores this frame's mouse-down sample so a
click can only fire after an observed release. -/
theorem button_first_frame_pre_pressed {inp : FrameInput} {st stR : UiManager}
    {L : String} {P : Nat2} {F : String} {f : UiManager → UiManager}
    {a b c : Int} {ds : List DrawCall} {rc : GeomRect} {ck hv : Bool}
    (hnew : dictLookup st.Buttons L = none)
    (h : UiManager.Button inp st L P F f a b c = .ok (stR, ds, rc, ck, hv)) :
    ck = false ∧
    (∀ g : UiManager → UiManager,
      UiManager.Button inp st L P F g a b c =
        UiManager.Button inp st L P F f a b c) ∧
    (∃ r, dictLookup stR.Buttons L = some r ∧
      r.prev_mouse_down = inp.leftDown) := by
  have hprevT : buttonPrev st L = true := by
    rw [buttonPrev_eq, hnew]
    rfl
  obtain ⟨hck, hex⟩ := Button_ok_clicked_prev h
  have hckF : ck = false := by
    rw [hck, hprevT]
    simp
  have hfires : ∀ tr : GeomRect, buttonClickFires inp st L tr = false := by
    intro tr
    unfold buttonClickFires
    rw [hprevT]
    simp
  refine ⟨hckF, ?_, hex⟩
  intro g
  have hpost : ∀ (g2 : UiManager → UiManager) (tr : GeomRect),
      buttonPostCb inp st L g2 tr = buttonInitState st L := by
    intro g2 tr
    unfold buttonPostCb
    rw [hfires tr]
    simp
  unfold UiManager.Button
  rcases hT : UiManager.Text inp.measure (buttonInitState st L) L P F a true
    with e | ⟨tr, junk⟩
  · rfl
  · show buttonFinish inp st L P F g a b c tr =
      buttonFinish inp st L P F f a b c tr
    unfold buttonFinish
    rw [hpost g tr, hpost f tr]

/-- C2 witness: the concrete first call `btnFresh` on unseen label "new"
with the pointer held down and hovering returns `clicked = false`,
is callback-independent, and stores `prev_mouse_down = true`. -/
theorem button_first_frame_pre_pressed_witness :
    btnClicked btnFresh = false ∧
    (∀ g : UiManager → UiManager,
      UiManager.Button inpDown { UiManager.init with Fonts := ["font"] } "new"
        ⟨100, 100⟩ "font" g 2 1 3 =
      UiManager.Button inpDown { UiManager.init with Fonts := ["font"] } "new"
        ⟨100, 100⟩ "font" (fun s => s) 2 1 3) ∧
    (∃ r, dictLookup (btnState btnFresh).Buttons "new" = some r ∧
      r.prev_mouse_down = inpDown.leftDown) :=
  button_first_frame_pre_pressed
    (rfl : dictLookup UiManager.init.Buttons "new" = none)
    (rfl : UiManager.Button inpDown { UiManager.init with Fonts := ["font"] }
      "new" ⟨100, 100⟩ "font" (fun s => s) 2 1 3 =
      .ok (btnState btnFresh, btnDraws btnFresh, btnRect btnFresh,
           btnClicked btnFresh, btnHovered btnFresh))

/-- C9: within a single `Button` call the callback is invoked at most once
and strictly before the call's own draw calls: when no click fires the
result does not depend on the callback at all, and when a click fires the
background fill and the label blit are resolved against the state the
callback produced (so callback-induced changes, e.g. a dark-mode flip,
affect this same frame's colors). -/
theorem button_onClick_once_before_draw {inp : FrameInput} {st : UiManager}
    {L : String} {P : Nat2} {F : String} {f : UiManager → UiManager}
    {a b c : Int} {stR : UiManager} {ds : List DrawCall} {rc : GeomRect}
    {ck hv : Bool}
    (h : UiManager.Button inp st L P F f a b c = .ok (stR, ds, rc, ck, hv)) :
    (ck = false → ∀ g : UiManager → UiManager,
      UiManager.Button inp st L P F g a b c =
        UiManager.Button inp st L P F f a b c) ∧
    (ck = true →
      ∃ bg : DrawCall, ∃ textDraws : List DrawCall, ds = bg :: textDraws ∧
        (f (buttonInitState st L)).Rect rc.XY rc.WH (if hv then b else c) =
          .ok bg ∧
        (∃ r2 : GeomRect, UiManager.Text inp.measure (f (buttonInitState st L))
          L P F a false = .ok (r2, textDraws))) := by
  obtain ⟨hrc, hhv, hck, ⟨bg, textDraws, hbg, hTxt, hds⟩, -⟩ :=
    Button_ok_inv inp st L P F f a b c stR ds rc ck hv h
  have hfires : buttonClickFires inp st L (mkRect P (inp.measure F L)) = ck := by
    rw [hck, hhv]
    rfl
  constructor
  · intro hck0 g
    rw [hck0] at hfires
    have hpost : ∀ g2 : UiManager → UiManager,
        buttonPostCb inp st L g2 (mkRect P (inp.measure F L)) =
          buttonInitState st L := by
      intro g2
      unfold buttonPostCb
      rw [hfires]
      simp
    unfold UiManager.Button
    rcases hT : UiManager.Text inp.measure (buttonInitState st L) L P F a true
      with e | ⟨tr, junk⟩
    · rfl
    · obtain ⟨htr, -⟩ := Text_ok_inv _ _ _ _ _ _ _ _ _ hT
      subst htr
      show buttonFinish inp st L P F g a b c (mkRect P (inp.measure F L)) =
        buttonFinish inp st L P F f a b c (mkRect P (inp.measure F L))
      unfold buttonFinish
      rw [hpost g, hpost f]
  · intro hck1
    rw [hck1] at hfires
    have hpost : buttonPostCb inp st L f (mkRect P (inp.measure F L)) =
        f (buttonInitState st L) := by
      unfold buttonPostCb
      rw [hfires]
      simp
    rw [hpost] at hbg hTxt
    exact ⟨bg, textDraws, hds, hbg, hTxt⟩

/-- C9 witness: the concrete clicked run `btnCb` whose callback is the
dark-mode flip `SwitchMode`: its two draw calls are resolved against the
flipped state. -/
theorem button_onClick_once_before_draw_witness :
    ∃ bg : DrawCall, ∃ textDraws : List DrawCall,
      btnDraws btnCb = bg :: textDraws ∧
      (UiManager.SwitchMode (buttonInitState stReady "btn")).Rect
        (btnRect btnCb).XY (btnRect btnCb).WH
        (if btnHovered btnCb then 1 else 3) = .ok bg ∧
      (∃ r2 : GeomRect, UiManager.Text inpDown.measure
        (UiManager.SwitchMode (buttonInitState stReady "btn")) "btn"
        ⟨100, 100⟩ "font" 2 false = .ok (r2, textDraws)) :=
  (button_onClick_once_before_draw
    (rfl : UiManager.Button inpDown stReady "btn" ⟨100, 100⟩ "font"
      UiManager.SwitchMode 2 1 3 =
      .ok (btnState btnCb, btnDraws btnCb, btnRect btnCb,
           btnClicked btnCb, btnHovered btnCb))).2
    (rfl : btnClicked btnCb = true)

/-- C10: a `Button` call in which no click fires (so the callback is not
invoked) modifies only the record of its own label — created if absent and
with `prev_mouse_down` overwritten by this frame's sample — leaving every
other button record, all checkbox records, the fonts, the palette, the
dark-mode flag and the rest of the engine state unchanged. -/
theorem button_frame_effect {inp : FrameInput} {st : UiManager} {L : String}
    {P : Nat2} {F : String} {f : UiManager → UiManager} {a b c : Int}
    {stR : UiManager} {ds : List DrawCall} {rc : GeomRect} {ck hv : Bool}
    (h : UiManager.Button inp st L P F f a b c = .ok (stR, ds, rc, ck, hv))
    (hck : ck = false) :
    stR.Running = st.Running ∧ stR.Fonts = st.Fonts ∧
    stR.ActiveMenu = st.ActiveMenu ∧
    stR.CheckboxStates = st.CheckboxStates ∧
    stR.ColorPalette = st.ColorPalette ∧ stR.IsDarkMode = st.IsDarkMode ∧
    (∀ L2 : String, L2 ≠ L →
      dictLookup stR.Buttons L2 = dictLookup st.Buttons L2) ∧
    (∃ r, dictLookup stR.Buttons L = some r ∧
      r.prev_mouse_down = inp.leftDown) := by
  obtain ⟨hrc, hhv, hckEq, -, ⟨r, hLook, hstR⟩⟩ :=
    Button_ok_inv inp st L P F f a b c stR ds rc ck hv h
  have hfires : buttonClickFires inp st L (mkRect P (inp.measure F L)) = ck := by
    rw [hckEq, hhv]
    rfl
  rw [hck] at hfires
  have hpost : buttonPostCb inp st L f (mkRect P (inp.measure F L)) =
      buttonInitState st L := by
    unfold buttonPostCb
    rw [hfires]
    simp
  rw [hpost] at hLook hstR
  subst hstR
  obtain ⟨hf1, hf2, hf3, hf4, hf5, hf6⟩ := buttonInitState_fields st L
  refine ⟨hf1, hf2, hf3, hf4, hf5, hf6, ?_, ?_⟩
  · intro L2 hne
    show dictLookup (dictInsert (buttonInitState st L).Buttons L
      { r with prev_mouse_down := UiManager.IsClick inp .Left }) L2 = _
    rw [dictLookup_dictInsert_ne _ _ _ _ hne]
    exact buttonInitState_lookup_ne st L L2 hne
  · refine ⟨{ r with prev_mouse_down := inp.leftDown }, ?_, rfl⟩
    exact dictLookup_dictInsert_self _ _ _

/-- C10 witness: the concrete non-clicked run `btnRun2` (held frame 2)
changes nothing but the "btn" record, whose `prev_mouse_down` becomes
`true`. -/
theorem button_frame_effect_witness :
    (btnState btnRun2).IsDarkMode = (btnState btnRun1).IsDarkMode ∧
    dictLookup (btnState btnRun2).Buttons "other" =
      dictLookup (btnState btnRun1).Buttons "other" ∧
    (∃ r, dictLookup (btnState btnRun2).Buttons "btn" = some r ∧
      r.prev_mouse_down = inpDown.leftDown) :=
  ⟨(button_frame_effect
      (rfl : UiManager.Button inpDown (btnState btnRun1) "btn" ⟨100, 100⟩
        "font" (fun s => s) 2 1 3 =
        .ok (btnState btnRun2, btnDraws btnRun2, btnRect btnRun2,
             btnClicked btnRun2, btnHovered btnRun2))
      (rfl : btnClicked btnRun2 = false)).2.2.2.2.2.1,
   (button_frame_effect
      (rfl : UiManager.Button inpDown (btnState btnRun1) "btn" ⟨100, 100⟩
        "font" (fun s => s) 2 1 3 =
        .ok (btnState btnRun2, btnDraws btnRun2, btnRect btnRun2,
             btnClicked btnRun2, btnHovered btnRun2))
      (rfl : btnClicked btnRun2 = false)).2.2.2.2.2.2.1 "other" (by decide),
   (button_frame_effect
      (rfl : UiManager.Button inpDown (btnState btnRun1) "btn" ⟨100, 100⟩
        "font" (fun s => s) 2 1 3 =
        .ok (btnState btnRun2, btnDraws btnRun2, btnRect btnRun2,
             btnClicked btnRun2, btnHovered btnRun2))
      (rfl : btnClicked btnRun2 = false)).2.2.2.2.2.2.2⟩

/-- The source-derived checkbox record step coincides with the
specification's toggle rule, for every state and input. -/
theorem checkboxStep_eq_spec (inp : FrameInput) (st : UiManager) (L : String)
    (P : Nat2) :
    checkboxStep inp st L P =
      checkboxSpecStep (checkboxHovered inp P) inp.leftDown
        ((dictLookup st.CheckboxStates L).getD ⟨false, false⟩) := by
  unfold checkboxStep checkboxSpecStep
  rw [checkboxRec0_eq]
  cases hH : checkboxHovered inp P <;> cases hC : inp.leftDown <;>
    cases hM : ((dictLookup st.CheckboxStates L).getD ⟨false, false⟩).mouse_down <;>
    simp [UiManager.IsClick, hH, hC, hM]

/-- C3: a successful `Checkbox` call updates its label's record by exactly
the debounced toggle rule (flip-and-latch on hovered+down with stored
`mouse_down` false; reset on hovered+up or not hovered — so a held press
toggles once, and a press begun outside toggles on the first hovered
frame), returns that record's `checked`, and hover is the 20×20 box
test. -/
theorem checkbox_toggle_rule {inp : FrameInput} {st : UiManager} {L : String}
    {P : Nat2} {F : String} {b1 b2 b3 b4 : Int} {stR : UiManager}
    {ds : List DrawCall} {ck hov : Bool}
    (h : UiManager.Checkbox inp st L P F b1 b2 b3 b4 = .ok (stR, ds, ck, hov)) :
    hov = UiManager.RectIsHover inp (mkRect P ⟨20, 20⟩) ∧
    dictLookup stR.CheckboxStates L =
      some (checkboxSpecStep hov inp.leftDown
        ((dictLookup st.CheckboxStates L).getD ⟨false, false⟩)) ∧
    ck = (checkboxSpecStep hov inp.leftDown
      ((dictLookup st.CheckboxStates L).getD ⟨false, false⟩)).checked := by
  obtain ⟨hstR, hck, hhov⟩ :=
    Checkbox_ok_inv inp st L P F b1 b2 b3 b4 stR ds ck hov h
  subst hhov
  refine ⟨rfl, ?_, ?_⟩
  · rw [hstR]
    show dictLookup (dictInsert (checkboxInitState st L).CheckboxStates L
      (checkboxStep inp st L P)) L = _
    rw [dictLookup_dictInsert_self, checkboxStep_eq_spec]
  · rw [hck, checkboxStep_eq_spec]

/-- C3 witness: the concrete run `cbRun1` — fresh label "cb"
(`checked = false`), hovered with the left button down — toggles to
checked per the rule. -/
theorem checkbox_toggle_rule_witness :
    cbHovered cbRun1 = UiManager.RectIsHover inpDown (mkRect ⟨95, 95⟩ ⟨20, 20⟩) ∧
    dictLookup (cbState cbRun1).CheckboxStates "cb" =
      some (checkboxSpecStep (cbHovered cbRun1) inpDown.leftDown
        ((dictLookup stCb.CheckboxStates "cb").getD ⟨false, false⟩)) ∧
    cbChecked cbRun1 = (checkboxSpecStep (cbHovered cbRun1) inpDown.leftDown
      ((dictLookup stCb.CheckboxStates "cb").getD ⟨false, false⟩)).checked :=
  checkbox_toggle_rule
    (rfl : UiManager.Checkbox inpDown stCb "cb" ⟨95, 95⟩ "font" 0 1 2 0 =
      .ok (cbState cbRun1, cbDraws cbRun1, cbChecked cbRun1, cbHovered cbRun1))

/-- C8 witness: the concrete call on `"a\n\nb"` with the constant 40×16
measurer draws exactly the two non-empty lines at offsets 0 and 32. -/
theorem textWrapped_two_lines_witness :
    UiManager.TextWrapped testMeasure stReady "a\n\nb" ⟨5, 6⟩ "font" 0 =
      .ok [.blit "a" ⟨5, 6⟩ (testMeasure "font" "a") ⟨0, 0.922, 0.451, 1⟩,
           .blit "b" (Nat2.mk 5 6 + Nat2.mk 0 32) (testMeasure "font" "b")
             ⟨0, 0.922, 0.451, 1⟩] :=
  (textWrapped_two_lines testMeasure stReady ⟨5, 6⟩ "font" 0
    ⟨0, 0.922, 0.451, 1⟩ rfl (by decide) rfl).2
